import Mathlib

/-!
Shallow embedding of `local_assistant_probe/probe.py` (the discovery core of the
local-assistant-probe repository) and proofs about it.

Modelling conventions:
* Python byte strings (request/response bodies) are modelled as Lean `String`s.
* JSON values produced by `json.loads` are modelled by the inductive `Json`
  below; JSON numbers are modelled as `Int` (no claim inspects fractional
  numbers).  Python's `None` is `Json.null`.
* `json.loads` itself (composed with the `errors="replace"` UTF-8 decode, which
  never raises) is a standard-library primitive; it is taken as an oracle
  parameter `parse : String → Option Json` that yields `none` exactly on
  malformed input.  Well-formedness facts about it (such as `parse "" = none`,
  since the empty string is not valid JSON) appear as explicit hypotheses.
* The network is an oracle `Net : Request → NetOutcome`: a request either
  yields an HTTP response via the normal `urlopen` return (`success`), raises
  `urllib.error.HTTPError` carrying a response (`httpError`), or raises a
  connection-level error such as `URLError`/timeout (`connFailure`), which the
  Python code does not catch.  The per-request timeout only configures the
  transport and is absorbed into the oracle.
-/

/-- JSON values as returned by `json.loads`; `null` doubles as Python `None`. -/
inductive Json where
  | null : Json
  | bool : Bool → Json
  | num : Int → Json
  | str : String → Json
  | arr : List Json → Json
  | obj : List (String × Json) → Json

/-- Python truthiness (`bool(x)`) on JSON values. -/
def pyTruthy : Json → Bool
  | Json.null => false
  | Json.bool b => b
  | Json.num n => n != 0
  | Json.str s => s != ""
  | Json.arr xs => !xs.isEmpty
  | Json.obj kvs => !kvs.isEmpty

/-- Python `dict.get(k)`: the value at `k`, else `None`.  Dictionaries produced
by `json.loads` have no duplicate keys, so first-match lookup is faithful. -/
def pyGet (kvs : List (String × Json)) (k : String) : Json :=
  (kvs.lookup k).getD Json.null

/-- Python `"k" in x` on a dict. -/
def pyHasKey (kvs : List (String × Json)) (k : String) : Bool :=
  (kvs.lookup k).isSome

/-- Python `str.replace` on character lists: replace all non-overlapping
occurrences of `pat` left to right.  `fuel` is an upper bound on the number of
steps; each step consumes at least one character when `pat` is non-empty (all
uses here have non-empty `pat`). -/
def listReplaceAux [BEq α] (pat rep : List α) : Nat → List α → List α
  | _, [] => []
  | 0, s => s
  | Nat.succ fuel, h :: t =>
    if !pat.isEmpty && pat.isPrefixOf (h :: t) then
      rep ++ listReplaceAux pat rep fuel ((h :: t).drop pat.length)
    else h :: listReplaceAux pat rep fuel t

/-- Python `s.replace(pat, rep)` (for non-empty `pat`). -/
def pyReplace (s pat rep : String) : String :=
  ⟨listReplaceAux pat.data rep.data s.data.length s.data⟩

/-- Escape for Python `repr` of a string: backslashes and single quotes. -/
def pyStrEscape (s : String) : String :=
  pyReplace (pyReplace s "\\" "\\\\") "'" "\\'"

mutual

/-- Python `repr` of a JSON value (used by `str` on lists and dicts). -/
def pyRepr : Json → String
  | Json.null => "None"
  | Json.bool b => if b then "True" else "False"
  | Json.num n => toString n
  | Json.str s => "'" ++ pyStrEscape s ++ "'"
  | Json.arr xs => "[" ++ pyReprList xs ++ "]"
  | Json.obj kvs => "\x7b" ++ pyReprObj kvs ++ "\x7d"

/-- Comma-separated `repr`s of list elements. -/
def pyReprList : List Json → String
  | [] => ""
  | [x] => pyRepr x
  | x :: xs => pyRepr x ++ ", " ++ pyReprList xs

/-- Comma-separated `repr`s of dict entries. -/
def pyReprObj : List (String × Json) → String
  | [] => ""
  | [(k, v)] => "'" ++ pyStrEscape k ++ "': " ++ pyRepr v
  | (k, v) :: kvs => "'" ++ pyStrEscape k ++ "': " ++ pyRepr v ++ ", " ++ pyReprObj kvs

end

/-- Python `str(x)` on a JSON value (`str` on containers equals `repr`). -/
def pyStr : Json → String
  | Json.null => "None"
  | Json.bool b => if b then "True" else "False"
  | Json.num n => toString n
  | Json.str s => s
  | Json.arr xs => pyRepr (Json.arr xs)
  | Json.obj kvs => pyRepr (Json.obj kvs)

/-- Escape for `json.dumps` of a string: backslashes and double quotes (the
payloads built by the probe contain no control characters). -/
def jsonStrEscape (s : String) : String :=
  pyReplace (pyReplace s "\\" "\\\\") "\"" "\\\""

mutual

/-- Model of `json.dumps` with its default separators (`", "` and `": "`). -/
def jsonDump : Json → String
  | Json.null => "null"
  | Json.bool b => if b then "true" else "false"
  | Json.num n => toString n
  | Json.str s => "\"" ++ jsonStrEscape s ++ "\""
  | Json.arr xs => "[" ++ jsonDumpList xs ++ "]"
  | Json.obj kvs => "\x7b" ++ jsonDumpObj kvs ++ "\x7d"

/-- Comma-separated dumps of list elements. -/
def jsonDumpList : List Json → String
  | [] => ""
  | [x] => jsonDump x
  | x :: xs => jsonDump x ++ ", " ++ jsonDumpList xs

/-- Comma-separated dumps of dict entries. -/
def jsonDumpObj : List (String × Json) → String
  | [] => ""
  | [(k, v)] => "\"" ++ jsonStrEscape k ++ "\": " ++ jsonDump v
  | (k, v) :: kvs => "\"" ++ jsonStrEscape k ++ "\": " ++ jsonDump v ++ ", " ++ jsonDumpObj kvs

end

/-- Model of `_join(base, path)` from probe.py.  `base.endswith("/")`, `base[:-1]` and
`path.startswith("/")` are modelled on the character lists. -/
def joinUrl (base path : String) : String :=
  let base2 : String := if List.isSuffixOf "/".data base.data then ⟨base.data.dropLast⟩ else base
  let path2 : String := if List.isPrefixOf "/".data path.data then path else "/" ++ path
  base2 ++ path2

/-- One element of the comprehension
`[str(x.get("id")) for x in payload["data"] if isinstance(x, dict) and "id" in x]`:
skip (`none`) unless `x` is a dict with an `"id"` key, else stringify
`x.get("id")`. -/
def dataElemId : Json → Option String
  | Json.obj fields =>
    if pyHasKey fields "id" then some (pyStr (pyGet fields "id")) else none
  | _ => none

/-- One element of the comprehension
`[str(x.get("id") or x.get("name")) for x in ... if isinstance(x, dict)]`
(the `models` and bare-list shapes): skip unless `x` is a dict, else stringify
`x.get("id") or x.get("name")`. -/
def nameElemId : Json → Option String
  | Json.obj fields =>
    some (pyStr (if pyTruthy (pyGet fields "id") then pyGet fields "id" else pyGet fields "name"))
  | _ => none

/-- Model of `_extract_model_ids(payload)` from probe.py.  The argument is `Option Json`
because the payload may be Python `None` (a failed `_try_json`); `None` matches
none of the `isinstance` checks and falls through to `[]`.  The three list
comprehensions become `filterMap`s over their element functions; the sequential
`if isinstance(...)` checks become the nested matches (a dict whose `"data"`
is not a list still reaches the `"models"` check, as in the source). -/
def extractModelIds : Option Json → List String
  | some (Json.obj kvs) =>
    match kvs.lookup "data" with
    | some (Json.arr xs) => xs.filterMap dataElemId
    | _ =>
      match kvs.lookup "models" with
      | some (Json.arr xs) => xs.filterMap nameElemId
      | _ => []
  | some (Json.arr xs) => xs.filterMap nameElemId
  | _ => []

/-- Python substring containment `needle in hay`, on character lists. -/
def listContains [BEq α] : List α → List α → Bool
  | needle, [] => needle.isEmpty
  | needle, h :: t => needle.isPrefixOf (h :: t) || listContains needle t

/-- Python `s.lower()` on the character list. -/
def pyLower (s : String) : List Char :=
  s.data.map Char.toLower

/-- The match test of `_pick_model`'s loop: `hint.lower() in mid.lower()`
(Python substring containment). -/
def hintMatches (hint mid : String) : Bool :=
  listContains (pyLower hint) (pyLower mid)

/-- Model of `_pick_model(model_ids, hint)` from probe.py. -/
def pickModel (modelIds : List String) (hint : String) : Option String :=
  match modelIds with
  | [] => none
  | first :: _ =>
    if hint ≠ "" then
      match modelIds.find? (fun mid => hintMatches hint mid) with
      | some mid => some mid
      | none => some first
    else some first

/-- Model of `_candidate_api_bases(host, port)` from probe.py. -/
def candidateApiBases (host : String) (port : Int) : List String :=
  let root := "http://" ++ host ++ ":" ++ toString port
  [root ++ "/api",
   root ++ "/v1",
   root ++ "/api/openai/v1",
   root ++ "/api/openai/v1",  -- intentional duplicate to preserve ordering
   root]

/-- The `ProbeResult` dataclass from probe.py. -/
structure ProbeResult where
  api_base : String
  model : String
  use_legacy_completions_endpoint : Bool
deriving DecidableEq

/-- A raw HTTP exchange result as seen by `urllib` before the probe's own
normalisation: status line, headers as sent (possibly repeated, arbitrary
case), body bytes. -/
structure RawResponse where
  status : Nat
  headers : List (String × String)
  body : String
deriving DecidableEq

/-- An outgoing request: the data `_http_request` passes to `urllib`. -/
structure Request where
  method : String
  url : String
  headers : List (String × String)
  data : Option String
deriving DecidableEq

/-- What the transport does with a request: `urlopen` returns a response,
raises `urllib.error.HTTPError` (which carries a response), or raises a
connection-level error (`URLError`, timeout, DNS) that probe.py never
catches. -/
inductive NetOutcome where
  | success : RawResponse → NetOutcome
  | httpError : RawResponse → NetOutcome
  | connFailure : NetOutcome
deriving DecidableEq

/-- The network oracle: the transport's behaviour on each request. -/
def Net : Type := Request → NetOutcome

/-- The uncaught connection-level exception escaping `_http_request`. -/
inductive ConnError where
  | connError : ConnError
deriving DecidableEq

/-- The `HttpResponse` dataclass from probe.py (the normalised response). -/
structure HttpResponse where
  status : Nat
  headers : List (String × String)
  body : String
deriving DecidableEq

/-- Python `dict` insertion: an existing key keeps its position and gets the
new value; a new key is appended.  (Keys built this way are unique, so
replacing every occurrence is faithful.) -/
def pyDictInsert (d : List (String × String)) (k v : String) : List (String × String) :=
  if d.any (fun kv => kv.1 == k) then d.map (fun kv => if kv.1 == k then (k, v) else kv)
  else d ++ [(k, v)]

/-- The header normalisation `{k.lower(): v for k, v in ...}`: a dict
comprehension, so duplicate keys resolve last-write-wins. -/
def lowerHeaders (hs : List (String × String)) : List (String × String) :=
  hs.foldl (fun d kv => pyDictInsert d ⟨pyLower kv.1⟩ kv.2) []

/-- Model of `_http_request(method, url, headers, data, timeout_s)` from probe.py.
Both the `urlopen` return path and the `HTTPError` path build the same
normalised `HttpResponse`; a connection-level error propagates. -/
def httpRequest (net : Net) (method url : String) (headers : List (String × String))
    (data : Option String) : Except ConnError HttpResponse :=
  match net ⟨method, url, headers, data⟩ with
  | NetOutcome.success r => Except.ok ⟨r.status, lowerHeaders r.headers, r.body⟩
  | NetOutcome.httpError r => Except.ok ⟨r.status, lowerHeaders r.headers, r.body⟩
  | NetOutcome.connFailure => Except.error ConnError.connError

/-- Model of `_auth_headers(api_key)` from probe.py. -/
def authHeaders (apiKey : String) : List (String × String) :=
  [("Authorization", "Bearer " ++ apiKey), ("Content-Type", "application/json")]

/-- Model of `_try_json(resp)` from probe.py: `None` on an empty body, otherwise the
best-effort parse (the `parse` oracle returns `none` exactly on input that is
not valid JSON, where `json.loads` raises `JSONDecodeError`). -/
def tryJson (parse : String → Option Json) (resp : HttpResponse) : Option Json :=
  if resp.body = "" then none else parse resp.body

/-- Model of `_probe_models(api_base, api_key, timeout_s)` from probe.py. -/
def probeModels (net : Net) (parse : String → Option Json) (apiBase apiKey : String) :
    Except ConnError (Option (List String) × String) :=
  let url := joinUrl apiBase "/models"
  match httpRequest net "GET" url (authHeaders apiKey) none with
  | Except.error e => Except.error e
  | Except.ok resp =>
    let payload := tryJson parse resp
    let ids := if resp.status == 200 then some (extractModelIds payload) else none
    Except.ok (ids, url ++ " -> " ++ toString resp.status)

/-- Model of `_chat_payload(model)` from probe.py. -/
def chatPayload (model : String) : String :=
  jsonDump (Json.obj
    [("model", Json.str model),
     ("messages", Json.arr [Json.obj [("role", Json.str "user"), ("content", Json.str "ping")]]),
     ("stream", Json.bool false)])

/-- Model of `_probe_chat(api_base, api_key, model, timeout_s)` from probe.py. -/
def probeChat (net : Net) (parse : String → Option Json) (apiBase apiKey model : String) :
    Except ConnError (Bool × String) :=
  let url := joinUrl apiBase "/chat/completions"
  match httpRequest net "POST" url (authHeaders apiKey) (some (chatPayload model)) with
  | Except.error e => Except.error e
  | Except.ok resp =>
    let ok := resp.status == 200 && (tryJson parse resp).isSome
    Except.ok (ok, url ++ " -> " ++ toString resp.status)

/-- The body of `_probe_legacy_completions`. -/
def legacyPayload (model : String) : String :=
  jsonDump (Json.obj
    [("model", Json.str model), ("prompt", Json.str "ping"), ("max_tokens", Json.num 8)])

/-- Model of `_probe_legacy_completions(api_base, api_key, model, timeout_s)` from probe.py. -/
def probeLegacy (net : Net) (parse : String → Option Json) (apiBase apiKey model : String) :
    Except ConnError (Bool × String) :=
  let url := joinUrl apiBase "/completions"
  match httpRequest net "POST" url (authHeaders apiKey) (some (legacyPayload model)) with
  | Except.error e => Except.error e
  | Except.ok resp =>
    let ok := resp.status == 200 && (tryJson parse resp).isSome
    Except.ok (ok, url ++ " -> " ++ toString resp.status)

/-- The candidate loop of `_best_effort_probe`, recursing over the remaining
candidate bases with the notes accumulated so far.  `model = _pick_model(ids
or [], hint) if ids is not None else None` becomes the `match` on `ids?`
(passing `[]` through `_pick_model` also yields `None`); `if not model:
continue` skips on Python-falsy model, i.e. both `None` and `""`. -/
def probeCandidates (net : Net) (parse : String → Option Json) (apiKey hint : String) :
    List String → List String → Except ConnError (Option ProbeResult × List String)
  | [], notes => Except.ok (none, notes)
  | base :: rest, notes =>
    match probeModels net parse base apiKey with
    | Except.error e => Except.error e
    | Except.ok (ids?, n1) =>
      let notes1 := notes ++ [n1]
      let model? := match ids? with
        | some ids => pickModel ids hint
        | none => none
      match model? with
      | none => probeCandidates net parse apiKey hint rest notes1
      | some model =>
        if model = "" then probeCandidates net parse apiKey hint rest notes1
        else
          match probeChat net parse base apiKey model with
          | Except.error e => Except.error e
          | Except.ok (ok1, n2) =>
            let notes2 := notes1 ++ [n2]
            if ok1 then Except.ok (some ⟨base, model, false⟩, notes2)
            else
              match probeLegacy net parse base apiKey model with
              | Except.error e => Except.error e
              | Except.ok (ok2, n3) =>
                let notes3 := notes2 ++ [n3]
                if ok2 then Except.ok (some ⟨base, model, true⟩, notes3)
                else probeCandidates net parse apiKey hint rest notes3

/-- Model of `_best_effort_probe(host, port, api_key, model_hint, timeout_s)` from
probe.py — the `discover` routine of the spec. -/
def bestEffortProbe (net : Net) (parse : String → Option Json) (host : String) (port : Int)
    (apiKey hint : String) : Except ConnError (Option ProbeResult × List String) :=
  probeCandidates net parse apiKey hint (candidateApiBases host port) []

/-- The `DEFAULT_CONTEXT` constant from probe.py: the seven context-provider entries. -/
def DEFAULT_CONTEXT : List (List (String × String)) :=
  [[("provider", "code")],
   [("provider", "docs")],
   [("provider", "diff")],
   [("provider", "terminal")],
   [("provider", "problems")],
   [("provider", "folder")],
   [("provider", "codebase")]]

/-- Model of `_yaml_quote(s)` from probe.py. -/
def yamlQuote (s : String) : String :=
  "\"" ++ pyReplace (pyReplace s "\\" "\\\\") "\"" "\\\"" ++ "\""

/-- The `lines` list built by `_render_yaml` (each element is one appended
line; `item["provider"]` is a total lookup on the concrete entries of
`DEFAULT_CONTEXT`). -/
def renderLines (result : ProbeResult) (apiKey title modelName : String) : List String :=
  ["name: " ++ title,
   "version: 1.0.0",
   "schema: v1",
   "models:",
   "  - name: " ++ modelName,
   "    provider: openai",
   "    model: " ++ result.model,
   "    env:",
   "      useLegacyCompletionsEndpoint: " ++
     (if result.use_legacy_completions_endpoint then "true" else "false"),
   "    apiBase: " ++ result.api_base,
   "    apiKey: " ++ yamlQuote apiKey,
   "    roles:",
   "      - chat",
   "      - edit",
   "context:"]
  ++ DEFAULT_CONTEXT.map (fun item => "  - provider: " ++ (item.lookup "provider").getD "")
  ++ [""]

/-- Model of `_render_yaml(result, api_key, title, model_name)` from probe.py:
`"\n".join(lines)`. -/
def renderYaml (result : ProbeResult) (apiKey title modelName : String) : String :=
  String.intercalate "\n" (renderLines result apiKey title modelName)

/-! ## Shared helper definitions and lemmas for the claims -/

/-- The transport delivered an HTTP response `r` for `req`, either via the
normal `urlopen` return or as an `HTTPError`. -/
def respondsWith (net : Net) (req : Request) (r : RawResponse) : Prop :=
  net req = NetOutcome.success r ∨ net req = NetOutcome.httpError r

/-- The call raised a connection-level error (the `Except.error` outcome). -/
def raisesConnError {α : Type} : Except ConnError α → Bool
  | Except.error _ => true
  | Except.ok _ => false

theorem httpRequest_of_responds {net : Net} {method url : String}
    {headers : List (String × String)} {data : Option String} {r : RawResponse}
    (h : respondsWith net ⟨method, url, headers, data⟩ r) :
    httpRequest net method url headers data =
      Except.ok ⟨r.status, lowerHeaders r.headers, r.body⟩ := by
  cases h with
  | inl h => simp [httpRequest, h]
  | inr h => simp [httpRequest, h]

theorem pyDictInsert_mem {d : List (String × String)} {k v : String} {kv : String × String}
    (h : kv ∈ pyDictInsert d k v) : kv ∈ d ∨ kv = (k, v) := by
  unfold pyDictInsert at h
  by_cases hc : d.any (fun kv => kv.1 == k)
  · rw [if_pos hc] at h
    rcases List.mem_map.mp h with ⟨a, ha, hkv⟩
    by_cases he : a.1 == k
    · rw [if_pos he] at hkv; exact Or.inr hkv.symm
    · rw [if_neg he] at hkv; exact Or.inl (hkv ▸ ha)
  · rw [if_neg hc] at h
    rcases List.mem_append.mp h with h | h
    · exact Or.inl h
    · exact Or.inr (List.mem_singleton.mp h)

theorem lowerHeaders_mem {hs : List (String × String)} {kv : String × String}
    (h : kv ∈ lowerHeaders hs) :
    ∃ k0 v0, (k0, v0) ∈ hs ∧ kv = (⟨pyLower k0⟩, v0) := by
  suffices H : ∀ (l : List (String × String)) (acc : List (String × String)),
      kv ∈ l.foldl (fun d kv => pyDictInsert d ⟨pyLower kv.1⟩ kv.2) acc →
      kv ∈ acc ∨ ∃ k0 v0, (k0, v0) ∈ l ∧ kv = (⟨pyLower k0⟩, v0) by
    rcases H hs [] h with h' | h'
    · simp at h'
    · exact h'
  intro l
  induction l with
  | nil => intro acc h'; exact Or.inl h'
  | cons p t ih =>
    intro acc h'
    rcases ih _ h' with h'' | ⟨k0, v0, hm, he⟩
    · rcases pyDictInsert_mem h'' with h3 | h3
      · exact Or.inl h3
      · exact Or.inr ⟨p.1, p.2, by simp, h3⟩
    · exact Or.inr ⟨k0, v0, by simp [hm], he⟩

/-! ## C5: best-effort JSON decoding -/

/-- C5: for every response body, `_try_json` returns nothing on an empty body,
nothing (raising no error) on a body that is not valid JSON (`parse` yields
`none` exactly there), and the parsed value on every valid JSON body — object,
array, or scalar alike (`v` ranges over all of `Json`).  The hypothesis
`parse "" = none` records that the empty string is not valid JSON. -/
theorem c5_tryJson_contract (parse : String → Option Json) (resp : HttpResponse)
    (hp : parse "" = none) :
    (resp.body = "" → tryJson parse resp = none) ∧
    (parse resp.body = none → tryJson parse resp = none) ∧
    (∀ v : Json, parse resp.body = some v → tryJson parse resp = some v) := by
  refine ⟨fun h => by simp [tryJson, h], fun h => ?_, fun v h => ?_⟩
  · by_cases hb : resp.body = "" <;> simp [tryJson, hb, h]
  · by_cases hb : resp.body = ""
    · rw [hb] at h; rw [hp] at h; exact absurd h (by simp)
    · simp [tryJson, hb, h]

/-- C5 witness: the contract applied to a concrete parse oracle and responses. -/
theorem c5_tryJson_contract_witness :
    tryJson (fun s => if s = "[1]" then some (Json.arr [Json.num 1]) else none)
        ⟨200, [], "[1]"⟩ = some (Json.arr [Json.num 1]) ∧
    tryJson (fun s => if s = "[1]" then some (Json.arr [Json.num 1]) else none)
        ⟨200, [], ""⟩ = none :=
  ⟨(c5_tryJson_contract _ ⟨200, [], "[1]"⟩ rfl).2.2 _ rfl,
   (c5_tryJson_contract _ ⟨200, [], ""⟩ rfl).1 rfl⟩

/-! ## C6: model selection -/

/-- C6: `_pick_model` returns nothing on an empty id list; for a non-empty
hint it returns the first id (in input order) whose lowercase form contains
the lowercase hint as a substring (`List.find?` over the list returns the
first match); and when the hint is empty or no id matches, it returns the
first id. -/
theorem c6_pickModel_contract (ids : List String) (hint : String) :
    (ids = [] → pickModel ids hint = none) ∧
    (∀ m, hint ≠ "" → ids.find? (fun mid => hintMatches hint mid) = some m →
      pickModel ids hint = some m) ∧
    (∀ first rest, ids = first :: rest →
      (hint = "" ∨ ids.find? (fun mid => hintMatches hint mid) = none) →
      pickModel ids hint = some first) := by
  refine ⟨fun h => by simp [pickModel, h], fun m hh hf => ?_, fun first rest hids hor => ?_⟩
  · cases ids with
    | nil => simp at hf
    | cons a t => simp [pickModel, hh, hf]
  · subst hids
    rcases hor with hh | hf
    · simp [pickModel, hh]
    · by_cases hh : hint = ""
      · simp [pickModel, hh]
      · simp [pickModel, hh, hf]

/-- C6 witness: the spec's own examples, plus the empty-list case. -/
theorem c6_pickModel_contract_witness :
    pickModel ["a", "llama3:8b", "b"] "llama3" = some "llama3:8b" ∧
    pickModel ["a", "llama3:8b", "b"] "" = some "a" ∧
    pickModel ([] : List String) "x" = none :=
  ⟨(c6_pickModel_contract _ _).2.1 _ (by decide) (by decide),
   (c6_pickModel_contract _ _).2.2 "a" ["llama3:8b", "b"] rfl (Or.inl rfl),
   (c6_pickModel_contract _ _).1 rfl⟩

/-! ## C7: HTTP responses of any status are captured, not raised -/

/-- C7: whenever the transport delivers an HTTP response — via the normal
return path or as an `HTTPError`, i.e. including 4xx/5xx — `_http_request`
returns a populated `HttpResponse` with the actual status code, the header map
with every name lowercased (each returned header comes from an original one by
lowercasing its name), and the response body. -/
theorem c7_httpRequest_captures (net : Net) (method url : String)
    (headers : List (String × String)) (data : Option String) (r : RawResponse)
    (h : respondsWith net ⟨method, url, headers, data⟩ r) :
    httpRequest net method url headers data =
      Except.ok ⟨r.status, lowerHeaders r.headers, r.body⟩ ∧
    (∀ kv ∈ lowerHeaders r.headers, ∃ k0 v0, (k0, v0) ∈ r.headers ∧ kv = (⟨pyLower k0⟩, v0)) :=
  ⟨httpRequest_of_responds h, fun _ hkv => lowerHeaders_mem hkv⟩

/-- C7 witness: a 401 with a body and mixed-case headers is returned as data. -/
theorem c7_httpRequest_captures_witness :
    httpRequest (fun _ => NetOutcome.httpError ⟨401, [("WWW-Authenticate", "Bearer")], "denied"⟩)
        "GET" "http://localhost:3000/api/models" [] none =
      Except.ok ⟨401, [("www-authenticate", "Bearer")], "denied"⟩ :=
  (c7_httpRequest_captures _ "GET" "http://localhost:3000/api/models" [] none
    ⟨401, [("WWW-Authenticate", "Bearer")], "denied"⟩ (Or.inr rfl)).1

/-! ## C8: rendering is deterministic with a fixed context block -/

/-- A line of the rendered output that declares a context provider. -/
def isProviderLine (s : String) : Bool :=
  List.isPrefixOf "  - provider: ".data s.data

/-- C8: `_render_yaml` is a pure function of `(result, api_key, title,
model_name)` (it is a Lean function, so identical inputs give byte-identical
output); for every input its line list contains exactly the seven
context-provider lines code, docs, diff, terminal, problems, folder, codebase
in that order, and the output — the `"\n"`-join of the lines — ends with a
single trailing blank line: the final line is empty and the one before it
(`"  - provider: codebase"`) is not. -/
theorem c8_renderYaml_shape (result : ProbeResult) (apiKey title modelName : String) :
    renderYaml result apiKey title modelName =
      String.intercalate "\n" (renderLines result apiKey title modelName) ∧
    (renderLines result apiKey title modelName).filter (fun s => isProviderLine s) =
      ["  - provider: code", "  - provider: docs", "  - provider: diff",
       "  - provider: terminal", "  - provider: problems", "  - provider: folder",
       "  - provider: codebase"] ∧
    (renderLines result apiKey title modelName).getLast? = some "" ∧
    (renderLines result apiKey title modelName).dropLast.getLast? =
      some "  - provider: codebase" :=
  ⟨rfl, rfl, rfl, rfl⟩

/-! ## C1: connection-level failures (corrected) -/

/-- C1 counterexample: with a transport whose every request raises a
connection-level error (timeout / DNS / refused), `discover` on the default
host and port does not absorb the failure and return its normal
`(result-or-nothing, notes)` value — it propagates the error.  `_http_request`
catches only `urllib.error.HTTPError`; no caller catches `URLError`, so the
claim as stated is false at this input. -/
theorem c1_conn_failure_counterexample :
    raisesConnError (bestEffortProbe (fun _ => NetOutcome.connFailure) (fun _ => none)
      "localhost" 3000 "sk-test" "llama3") = true := rfl

/-- C1 amended: a connection-level failure at the current candidate's
`/models` probe is not treated as an unsuccessful attempt for that URL only:
the candidate loop stops and `discover` propagates the connectivity error
instead of returning its normal value.  (Only `HTTPError` responses are
absorbed; `URLError`/timeouts escape.) -/
theorem c1_conn_failure_propagates (net : Net) (parse : String → Option Json)
    (apiKey hint base : String) (rest notes : List String)
    (h : net ⟨"GET", joinUrl base "/models", authHeaders apiKey, none⟩ = NetOutcome.connFailure) :
    probeCandidates net parse apiKey hint (base :: rest) notes =
      Except.error ConnError.connError := by
  simp [probeCandidates, probeModels, httpRequest, h]

/-- C1 witness: the propagation theorem applied to the all-failing transport
at the first candidate base. -/
theorem c1_conn_failure_propagates_witness :
    probeCandidates (fun _ => NetOutcome.connFailure) (fun _ => none) "sk-test" "llama3"
      ("http://localhost:3000/api" :: ["http://localhost:3000/v1"]) [] =
      Except.error ConnError.connError :=
  c1_conn_failure_propagates _ _ _ _ _ _ _ rfl

/-! ## C10: an empty-string model identifier abandons the candidate -/

/-- C10: when model selection yields the empty string (Python-falsy), the
candidate is abandoned exactly as if no model had been selected: the loop
continues with the remaining candidates carrying only the `/models` note, so
no chat-completion or legacy-completion request is issued for this candidate
(the right-hand side never consults the transport about `base` again). -/
theorem c10_empty_model_abandons (net : Net) (parse : String → Option Json)
    (apiKey hint base : String) (rest notes : List String) (ids : List String) (n1 : String)
    (hm : probeModels net parse base apiKey = Except.ok (some ids, n1))
    (hp : pickModel ids hint = some "") :
    probeCandidates net parse apiKey hint (base :: rest) notes =
      probeCandidates net parse apiKey hint rest (notes ++ [n1]) := by
  simp [probeCandidates, hm, hp]

/-- C10 witness: a transport whose `/models` answer is
`{"data": [{"id": ""}]}` (so selection picks `""`); the candidate is skipped
and discovery ends with only the two `/models` notes. -/
theorem c10_empty_model_abandons_witness :
    probeCandidates
        (fun req => if req.url = "http://h:1/api/models"
          then NetOutcome.success ⟨200, [], "EMPTYID"⟩ else NetOutcome.httpError ⟨404, [], ""⟩)
        (fun s => if s = "EMPTYID"
          then some (Json.obj [("data", Json.arr [Json.obj [("id", Json.str "")]])]) else none)
        "sk" "llama3" ("http://h:1/api" :: ["http://h:1/v1"]) [] =
      probeCandidates
        (fun req => if req.url = "http://h:1/api/models"
          then NetOutcome.success ⟨200, [], "EMPTYID"⟩ else NetOutcome.httpError ⟨404, [], ""⟩)
        (fun s => if s = "EMPTYID"
          then some (Json.obj [("data", Json.arr [Json.obj [("id", Json.str "")]])]) else none)
        "sk" "llama3" ["http://h:1/v1"] ["http://h:1/api/models -> 200"] :=
  c10_empty_model_abandons _ _ _ _ _ _ _ _ _ rfl rfl

/-! ## C2: first successful completion probe wins -/

theorem probeChat_of_responds {net : Net} {parse : String → Option Json}
    {base apiKey model : String} {rc : RawResponse}
    (h : respondsWith net
      ⟨"POST", joinUrl base "/chat/completions", authHeaders apiKey, some (chatPayload model)⟩ rc) :
    probeChat net parse base apiKey model =
      Except.ok ((rc.status == 200 && (tryJson parse ⟨rc.status, lowerHeaders rc.headers, rc.body⟩).isSome),
        joinUrl base "/chat/completions" ++ " -> " ++ toString rc.status) := by
  simp [probeChat, httpRequest_of_responds h]

theorem probeLegacy_of_responds {net : Net} {parse : String → Option Json}
    {base apiKey model : String} {rl : RawResponse}
    (h : respondsWith net
      ⟨"POST", joinUrl base "/completions", authHeaders apiKey, some (legacyPayload model)⟩ rl) :
    probeLegacy net parse base apiKey model =
      Except.ok ((rl.status == 200 && (tryJson parse ⟨rl.status, lowerHeaders rl.headers, rl.body⟩).isSome),
        joinUrl base "/completions" ++ " -> " ++ toString rl.status) := by
  simp [probeLegacy, httpRequest_of_responds h]

/-- C2: at a candidate base whose `/models` probe yields ids from which a
model is selected (selection in the loop's sense: `_pick_model` returns a
Python-truthy, i.e. non-empty, identifier): (i) if POST
`{base}/chat/completions` answers with status 200 and a body that decodes as
JSON, the loop returns `ProbeResult(base, model, use_legacy = false)`
immediately — the result does not depend on the remaining candidates `rest`;
(ii) if the chat probe fails and POST `{base}/completions` answers with status
200 and a body that decodes as JSON, the loop returns `ProbeResult(base,
model, use_legacy = true)` immediately, again independently of `rest`. -/
theorem c2_completion_probe_success (net : Net) (parse : String → Option Json)
    (apiKey hint base : String) (rest notes : List String) (ids : List String)
    (n1 model : String)
    (hm : probeModels net parse base apiKey = Except.ok (some ids, n1))
    (hp : pickModel ids hint = some model) (hne : model ≠ "") :
    (∀ rc : RawResponse, respondsWith net
        ⟨"POST", joinUrl base "/chat/completions", authHeaders apiKey, some (chatPayload model)⟩ rc →
      rc.status = 200 → rc.body ≠ "" → ∀ v : Json, parse rc.body = some v →
      probeCandidates net parse apiKey hint (base :: rest) notes =
        Except.ok (some ⟨base, model, false⟩,
          notes ++ [n1, joinUrl base "/chat/completions" ++ " -> 200"])) ∧
    (∀ n2, probeChat net parse base apiKey model = Except.ok (false, n2) →
      ∀ rl : RawResponse, respondsWith net
        ⟨"POST", joinUrl base "/completions", authHeaders apiKey, some (legacyPayload model)⟩ rl →
      rl.status = 200 → rl.body ≠ "" → ∀ v : Json, parse rl.body = some v →
      probeCandidates net parse apiKey hint (base :: rest) notes =
        Except.ok (some ⟨base, model, true⟩,
          notes ++ [n1, n2, joinUrl base "/completions" ++ " -> 200"])) := by
  constructor
  · intro rc hresp hst hbody v hv
    have hchat := @probeChat_of_responds net parse base apiKey model rc hresp
    rw [hst] at hchat
    have hok : tryJson parse ⟨200, lowerHeaders rc.headers, rc.body⟩ = some v := by
      simp [tryJson, hbody, hv]
    rw [hok] at hchat
    simp only [beq_self_eq_true, Option.isSome_some, Bool.and_true] at hchat
    simp [probeCandidates, hm, hp, hne, hchat]
    rw [String.append_assoc]; rfl
  · intro n2 hchat rl hresp hst hbody v hv
    have hleg := @probeLegacy_of_responds net parse base apiKey model rl hresp
    rw [hst] at hleg
    have hok : tryJson parse ⟨200, lowerHeaders rl.headers, rl.body⟩ = some v := by
      simp [tryJson, hbody, hv]
    rw [hok] at hleg
    simp only [beq_self_eq_true, Option.isSome_some, Bool.and_true] at hleg
    simp [probeCandidates, hm, hp, hne, hchat, hleg]
    rw [String.append_assoc]; rfl

/-- A transport for the C2 witness: `/models` lists one llama3 model; chat
completions succeed under `/api`. -/
def w2net : Net := fun req =>
  if req.url = "http://localhost:3000/api/models" then NetOutcome.success ⟨200, [], "IDS"⟩
  else if req.url = "http://localhost:3000/api/chat/completions" then
    NetOutcome.success ⟨200, [], "OK"⟩
  else NetOutcome.httpError ⟨404, [], "nf"⟩

/-- A transport for the C2 witness, legacy variant: chat completions 404,
legacy completions succeed. -/
def w2netLegacy : Net := fun req =>
  if req.url = "http://localhost:3000/api/models" then NetOutcome.success ⟨200, [], "IDS"⟩
  else if req.url = "http://localhost:3000/api/completions" then
    NetOutcome.success ⟨200, [], "OK"⟩
  else NetOutcome.httpError ⟨404, [], "nf"⟩

/-- The parse oracle for the C2 witness. -/
def w2parse : String → Option Json := fun s =>
  if s = "IDS" then
    some (Json.obj [("data", Json.arr [Json.obj [("id", Json.str "llama3:latest")]])])
  else if s = "OK" then some (Json.obj [("choices", Json.arr [])])
  else none

/-- C2 witness: both branches of the theorem at a concrete transport — the
chat-completion success and the legacy fallback. -/
theorem c2_completion_probe_success_witness :
    probeCandidates w2net w2parse "sk" "llama3" ["http://localhost:3000/api"] [] =
      Except.ok (some ⟨"http://localhost:3000/api", "llama3:latest", false⟩,
        ["http://localhost:3000/api/models -> 200",
         "http://localhost:3000/api/chat/completions -> 200"]) ∧
    probeCandidates w2netLegacy w2parse "sk" "llama3" ["http://localhost:3000/api"] [] =
      Except.ok (some ⟨"http://localhost:3000/api", "llama3:latest", true⟩,
        ["http://localhost:3000/api/models -> 200",
         "http://localhost:3000/api/chat/completions -> 404",
         "http://localhost:3000/api/completions -> 200"]) :=
  ⟨(c2_completion_probe_success w2net w2parse "sk" "llama3" "http://localhost:3000/api"
      [] [] ["llama3:latest"] "http://localhost:3000/api/models -> 200" "llama3:latest"
      rfl (by decide) (by decide)).1
      ⟨200, [], "OK"⟩ (Or.inl rfl) rfl (by decide) (Json.obj [("choices", Json.arr [])]) rfl,
   (c2_completion_probe_success w2netLegacy w2parse "sk" "llama3" "http://localhost:3000/api"
      [] [] ["llama3:latest"] "http://localhost:3000/api/models -> 200" "llama3:latest"
      rfl (by decide) (by decide)).2
      "http://localhost:3000/api/chat/completions -> 404" rfl
      ⟨200, [], "OK"⟩ (Or.inl rfl) rfl (by decide) (Json.obj [("choices", Json.arr [])]) rfl⟩

/-! ## C4: skipping inside matched model-list shapes (corrected) -/

/-- C4 counterexample: in the `models`-object shape, an object element that
carries neither an `id` nor a `name` key is not silently skipped — it
contributes the stringified missing value `"None"`.  (Under the claim the
result would be `[]`.) -/
theorem c4_skip_counterexample :
    extractModelIds (some (Json.obj [("models", Json.arr [Json.obj [("foo", Json.num 1)]])])) =
      ["None"] ∧
    extractModelIds (some (Json.obj [("models", Json.arr [Json.obj [("foo", Json.num 1)]])])) ≠
      ([] : List String) := by decide

/-- C4 amended: inside a matched list shape, `_extract_model_ids` silently
skips exactly the elements that are not objects; in the `data` shape it
additionally skips object elements without an `id` key; in the `models`-object
and bare-list shapes every object element is included, contributing its `id`
falling back to its `name`, stringified — an object element carrying neither
key contributes the string `"None"` (the stringified missing value) rather
than being skipped. -/
theorem c4_extract_shapes (kvs : List (String × Json)) (xs : List Json) :
    (kvs.lookup "data" = some (Json.arr xs) →
      extractModelIds (some (Json.obj kvs)) = xs.filterMap dataElemId) ∧
    ((∀ ys, kvs.lookup "data" ≠ some (Json.arr ys)) →
      kvs.lookup "models" = some (Json.arr xs) →
      extractModelIds (some (Json.obj kvs)) = xs.filterMap nameElemId) ∧
    (extractModelIds (some (Json.arr xs)) = xs.filterMap nameElemId) ∧
    (∀ x ∈ xs, (∀ fields, x ≠ Json.obj fields) → dataElemId x = none ∧ nameElemId x = none) ∧
    (∀ fields, pyHasKey fields "id" = false → dataElemId (Json.obj fields) = none) ∧
    (∀ fields, pyHasKey fields "id" = false → pyHasKey fields "name" = false →
      nameElemId (Json.obj fields) = some "None") := by
  refine ⟨fun h => ?_, fun hd hm => ?_, rfl, fun x _ hno => ?_, fun fields h => ?_,
    fun fields hid hname => ?_⟩
  · simp only [extractModelIds, h]
  · rcases h2 : kvs.lookup "data" with _ | v
    · simp only [extractModelIds, h2, hm]
    · cases v with
      | arr ys => exact absurd h2 (hd ys)
      | null => simp only [extractModelIds, h2, hm]
      | bool b => simp only [extractModelIds, h2, hm]
      | num n => simp only [extractModelIds, h2, hm]
      | str s => simp only [extractModelIds, h2, hm]
      | obj o => simp only [extractModelIds, h2, hm]
  · cases x with
    | obj fields => exact absurd rfl (hno fields)
    | null => exact ⟨rfl, rfl⟩
    | bool b => exact ⟨rfl, rfl⟩
    | num n => exact ⟨rfl, rfl⟩
    | str s => exact ⟨rfl, rfl⟩
    | arr ys => exact ⟨rfl, rfl⟩
  · simp [dataElemId, h]
  · have hid' : fields.lookup "id" = none := by
      cases hl : fields.lookup "id" with
      | none => rfl
      | some v => simp [pyHasKey, hl] at hid
    have hname' : fields.lookup "name" = none := by
      cases hl : fields.lookup "name" with
      | none => rfl
      | some v => simp [pyHasKey, hl] at hname
    simp [nameElemId, pyGet, pyTruthy, hid', hname', pyStr]

/-- C4 witness: the amended characterisation applied to concrete payloads of
each shape — a `data` list mixing a good entry, a non-object and a key-less
object, and a `models` list whose key-less object contributes `"None"`. -/
theorem c4_extract_shapes_witness :
    extractModelIds (some (Json.obj [("data", Json.arr
        [Json.obj [("id", Json.str "m1")], Json.str "junk", Json.obj [("x", Json.null)]])])) =
      ["m1"] ∧
    extractModelIds (some (Json.obj [("models", Json.arr
        [Json.obj [("name", Json.str "m2")], Json.num 3, Json.obj []])])) =
      ["m2", "None"] := by
  constructor
  · rw [(c4_extract_shapes [("data", Json.arr
      [Json.obj [("id", Json.str "m1")], Json.str "junk", Json.obj [("x", Json.null)]])]
      [Json.obj [("id", Json.str "m1")], Json.str "junk", Json.obj [("x", Json.null)]]).1 rfl]
    decide
  · rw [(c4_extract_shapes [("models", Json.arr
      [Json.obj [("name", Json.str "m2")], Json.num 3, Json.obj []])]
      [Json.obj [("name", Json.str "m2")], Json.num 3, Json.obj []]).2.1
      (fun ys h => Option.noConfusion
        (Eq.trans (Eq.symm (show (List.lookup "data" [("models", Json.arr
          [Json.obj [("name", Json.str "m2")], Json.num 3, Json.obj []])]) = none from rfl)) h))
      rfl]
    decide

/-! ## C3: candidate bases and exhausted discovery -/

theorem probeCandidates_exhausted {net : Net} {parse : String → Option Json}
    {apiKey hint : String} (bases : List String) (notes : List String) :
    (∀ base ∈ bases, ∃ note,
      probeModels net parse base apiKey = Except.ok (none, note) ∨
      probeModels net parse base apiKey = Except.ok (some [], note)) →
    ∃ notes2, probeCandidates net parse apiKey hint bases notes = Except.ok (none, notes ++ notes2) ∧
      notes2.length = bases.length := by
  induction bases generalizing notes with
  | nil => exact fun _ => ⟨[], by simp [probeCandidates], rfl⟩
  | cons base rest ih =>
    intro h
    have hrest : ∀ b ∈ rest, ∃ note,
        probeModels net parse b apiKey = Except.ok (none, note) ∨
        probeModels net parse b apiKey = Except.ok (some [], note) :=
      fun b hb => h b (List.mem_cons_of_mem _ hb)
    obtain ⟨note, hb | hb⟩ := h base (List.mem_cons_self base rest)
    · obtain ⟨notes2, heq, hlen⟩ := ih (notes ++ [note]) hrest
      refine ⟨note :: notes2, ?_, by simp [hlen]⟩
      rw [show probeCandidates net parse apiKey hint (base :: rest) notes =
        probeCandidates net parse apiKey hint rest (notes ++ [note]) by
          simp [probeCandidates, hb]]
      rw [heq]
      simp
    · obtain ⟨notes2, heq, hlen⟩ := ih (notes ++ [note]) hrest
      refine ⟨note :: notes2, ?_, by simp [hlen]⟩
      rw [show probeCandidates net parse apiKey hint (base :: rest) notes =
        probeCandidates net parse apiKey hint rest (notes ++ [note]) by
          simp [probeCandidates, hb, pickModel]]
      rw [heq]
      simp

/-- C3: the candidate bases for `(host, port)` are exactly the five URLs
`http://{host}:{port}/api`, `/v1`, `/api/openai/v1`, `/api/openai/v1`
(duplicate) and the bare root, in that order; and when every candidate's
`/models` call returns non-200 (`ids = None`) or yields no ids (`[]`),
discovery returns nothing and the notes are exactly one entry per candidate —
five entries, so no completion probe contributed a note. -/
theorem c3_candidates_and_exhaustion (host : String) (port : Int) (net : Net)
    (parse : String → Option Json) (apiKey hint : String)
    (h : ∀ base ∈ candidateApiBases host port, ∃ note,
      probeModels net parse base apiKey = Except.ok (none, note) ∨
      probeModels net parse base apiKey = Except.ok (some [], note)) :
    candidateApiBases host port =
      ["http://" ++ host ++ ":" ++ toString port ++ "/api",
       "http://" ++ host ++ ":" ++ toString port ++ "/v1",
       "http://" ++ host ++ ":" ++ toString port ++ "/api/openai/v1",
       "http://" ++ host ++ ":" ++ toString port ++ "/api/openai/v1",
       "http://" ++ host ++ ":" ++ toString port] ∧
    ∃ notes, bestEffortProbe net parse host port apiKey hint = Except.ok (none, notes) ∧
      notes.length = 5 := by
  refine ⟨rfl, ?_⟩
  obtain ⟨notes2, heq, hlen⟩ := probeCandidates_exhausted (candidateApiBases host port) [] h
  exact ⟨notes2, by simpa [bestEffortProbe] using heq, by rw [hlen]; rfl⟩

/-- C3 witness: a server answering 404 everywhere — five `/models` notes, no
result. -/
theorem c3_candidates_and_exhaustion_witness :
    ∃ notes, bestEffortProbe (fun _ => NetOutcome.httpError ⟨404, [], "e"⟩) (fun _ => none)
      "localhost" 3000 "sk" "llama3" = Except.ok (none, notes) ∧ notes.length = 5 :=
  (c3_candidates_and_exhaustion "localhost" 3000 (fun _ => NetOutcome.httpError ⟨404, [], "e"⟩)
    (fun _ => none) "sk" "llama3"
    (fun base _ => ⟨joinUrl base "/models" ++ " -> " ++ toString (404 : Nat), Or.inl rfl⟩)).2

/-! ## C9: a returned result comes from a candidate base and its id list -/

theorem pickModel_mem {ids : List String} {hint m : String}
    (h : pickModel ids hint = some m) : m ∈ ids := by
  cases ids with
  | nil => simp [pickModel] at h
  | cons a t =>
    by_cases hh : hint = ""
    · simp [pickModel, hh] at h
      subst h
      exact List.mem_cons_self a t
    · rcases hf : (a :: t).find? (fun mid => hintMatches hint mid) with _ | mid
      · simp [pickModel, hh, hf] at h
        subst h
        exact List.mem_cons_self a t
      · have hmem := List.mem_of_find?_eq_some hf
        simp [pickModel, hh, hf] at h
        rwa [h] at hmem

theorem probeCandidates_ok_some {net : Net} {parse : String → Option Json}
    {apiKey hint : String} (bases : List String) (notes notesF : List String)
    (res : ProbeResult)
    (h : probeCandidates net parse apiKey hint bases notes = Except.ok (some res, notesF)) :
    res.api_base ∈ bases ∧ ∃ ids note,
      probeModels net parse res.api_base apiKey = Except.ok (some ids, note) ∧
      pickModel ids hint = some res.model ∧ res.model ∈ ids := by
  induction bases generalizing notes with
  | nil => simp [probeCandidates] at h
  | cons base rest ih =>
    rcases hm : probeModels net parse base apiKey with e | p
    · simp [probeCandidates, hm] at h
    · obtain ⟨ids?, n1⟩ := p
      cases ids? with
      | none =>
        simp only [probeCandidates, hm] at h
        obtain ⟨hmem, rest_h⟩ := ih _ h
        exact ⟨List.mem_cons_of_mem _ hmem, rest_h⟩
      | some ids =>
        rcases hp : pickModel ids hint with _ | model
        · simp only [probeCandidates, hm, hp] at h
          obtain ⟨hmem, rest_h⟩ := ih _ h
          exact ⟨List.mem_cons_of_mem _ hmem, rest_h⟩
        · by_cases hne : model = ""
          · subst hne
            simp only [probeCandidates, hm, hp, if_pos rfl] at h
            obtain ⟨hmem, rest_h⟩ := ih _ h
            exact ⟨List.mem_cons_of_mem _ hmem, rest_h⟩
          · simp only [probeCandidates, hm, hp, if_neg hne] at h
            rcases hc : probeChat net parse base apiKey model with e | q
            · simp only [hc] at h
              exact absurd h (by simp)
            · obtain ⟨ok1, n2⟩ := q
              cases ok1 with
              | true =>
                simp only [hc, eq_self_iff_true, if_true, Except.ok.injEq, Prod.mk.injEq,
                  Option.some.injEq] at h
                obtain ⟨hres, -⟩ := h
                subst hres
                exact ⟨List.mem_cons_self base rest, ids, n1, hm, hp, pickModel_mem hp⟩
              | false =>
                simp only [hc, Bool.false_eq_true, if_false] at h
                rcases hl : probeLegacy net parse base apiKey model with e | q2
                · simp only [hl] at h
                  exact absurd h (by simp)
                · obtain ⟨ok2, n3⟩ := q2
                  cases ok2 with
                  | true =>
                    simp only [hl, eq_self_iff_true, if_true, Except.ok.injEq, Prod.mk.injEq,
                      Option.some.injEq] at h
                    obtain ⟨hres, -⟩ := h
                    subst hres
                    exact ⟨List.mem_cons_self base rest, ids, n1, hm, hp, pickModel_mem hp⟩
                  | false =>
                    simp only [hl, Bool.false_eq_true, if_false] at h
                    obtain ⟨hmem, rest_h⟩ := ih _ h
                    exact ⟨List.mem_cons_of_mem _ hmem, rest_h⟩

/-- C9: whenever discovery returns a `ProbeResult`, its `api_base` is one of
the five candidate bases constructed for `(host, port)`, and its `model` is an
element of the id list extracted from that base's 200 `/models` response —
namely the one chosen by `_pick_model` with the given hint. -/
theorem c9_result_from_candidates (net : Net) (parse : String → Option Json)
    (host : String) (port : Int) (apiKey hint : String) (res : ProbeResult)
    (notesF : List String)
    (h : bestEffortProbe net parse host port apiKey hint = Except.ok (some res, notesF)) :
    res.api_base ∈ candidateApiBases host port ∧ ∃ ids note,
      probeModels net parse res.api_base apiKey = Except.ok (some ids, note) ∧
      pickModel ids hint = some res.model ∧ res.model ∈ ids :=
  probeCandidates_ok_some (candidateApiBases host port) [] notesF res h

/-- C9 witness: the invariant applied to a concrete successful discovery. -/
theorem c9_result_from_candidates_witness :
    (ProbeResult.mk "http://localhost:3000/api" "llama3:latest" false).api_base ∈
      candidateApiBases "localhost" 3000 ∧ ∃ ids note,
      probeModels w2net w2parse
        (ProbeResult.mk "http://localhost:3000/api" "llama3:latest" false).api_base "sk" =
        Except.ok (some ids, note) ∧
      pickModel ids "llama3" =
        some (ProbeResult.mk "http://localhost:3000/api" "llama3:latest" false).model ∧
      (ProbeResult.mk "http://localhost:3000/api" "llama3:latest" false).model ∈ ids :=
  c9_result_from_candidates w2net w2parse "localhost" 3000 "sk" "llama3"
    ⟨"http://localhost:3000/api", "llama3:latest", false⟩
    ["http://localhost:3000/api/models -> 200",
     "http://localhost:3000/api/chat/completions -> 200"] rfl
